import Mathlib

set_option autoImplicit false

/-!
Shallow embedding of the combat core of the `project-zorg` text RPG.

The embedding follows the Python sources:
* `src/core/models.py` (data model: `TipoHabilidade`, `Equipamento`, `Item`,
  `Habilidade`, `Personagem` and its combat methods);
* `src/core/managers/combat_manager.py` (the combat manager);
* `src/core/elemental_system.py` (elemental effectiveness chart);
* `src/core/enemy_ai.py` (the JSON-driven enemy AI engine);
* `src/config/settings.py` (`COMBAT_CONFIG`).

Python machine integers are embedded as `Int`; Python floats that appear in
combat formulas are dyadic/decimal rationals (1.75, 0.5, 0.75, ...) applied to
small game integers, where IEEE-754 double arithmetic is exact, so they are
embedded as `ℚ`.  Python exceptions are embedded with an explicit error type:
a mutating method returns `PyResult σ α`, which carries the (possibly
partially mutated) object state both on success and on failure, exactly as
in-place mutation behaves under exceptions in Python.  Attribute lookup on
enums (`TipoHabilidade.FURIA`, `Element.AGUA`, `EventType.COMBAT_ERROR`) and
on dataclass instances is embedded by name, because several code paths probe
attributes that do not exist (`AttributeError`) or were never imported
(`NameError`), and that behaviour is load-bearing.
-/

namespace Zorg

/-- Python exceptions reachable from the combat core.  `valueError`,
`attributeError` and `nameError` are Python builtins; the remaining
constructors are the `ZorgException` subclasses of `src/core/exceptions.py`,
plus `zorgUnexpected` for the bare `ZorgException` that the
`handle_exceptions` decorator raises when wrapping a non-Zorg exception. -/
inductive PyError where
  | valueError (msg : String)
  | attributeError (msg : String)
  | nameError (msg : String)
  | combatError (msg : String)
  | invalidActionError (msg : String)
  | insufficientResourcesError (resource : String) (required available : Int)
  | resourceNotFoundError (rtype rname : String)
  | characterStateError (msg : String)
  | dataValidationError (msg : String)
  | zorgUnexpected (msg : String)
  deriving Repr, DecidableEq

/-- Whether the exception is a `ZorgException` subclass (`core/exceptions.py`):
the builtins `ValueError`, `AttributeError`, `NameError` are not. -/
def PyError.isZorg : PyError → Bool
  | .valueError _ => false
  | .attributeError _ => false
  | .nameError _ => false
  | _ => true

/-- Result of running a Python method that mutates an object of state type
`σ` in place: on success the new state and the return value, on an exception
the state at the moment the exception escapes (partial mutations persist). -/
inductive PyResult (σ : Type) (α : Type) where
  | ok (s : σ) (a : α)
  | error (s : σ) (e : PyError)
  deriving Repr, DecidableEq

/-- The object state after the call, whether or not it raised. -/
def PyResult.state {σ α : Type} : PyResult σ α → σ
  | .ok s _ => s
  | .error s _ => s

/-- `src/core/models.py`, `TipoEquipamento`. -/
inductive TipoEquipamento where
  | ARMA | ARMADURA | ESCUDO
  deriving Repr, DecidableEq

/-- `src/core/models.py`, `TipoHabilidade`.  The enum has exactly these five
members; `combat_manager.py` and `data/` additionally refer to
`TipoHabilidade.FURIA` and `TipoHabilidade.REGENERACAO`, which do not exist. -/
inductive TipoHabilidade where
  | ATAQUE | CURA | BUFF_DEFESA | BUFF_ATAQUE | DEBUFF
  deriving Repr, DecidableEq

/-- Python attribute access `TipoHabilidade.<name>`: member lookup on the enum
raises `AttributeError` for any name that is not one of the five members. -/
def tipoHabilidadeAttr : String → Except PyError TipoHabilidade
  | "ATAQUE" => .ok .ATAQUE
  | "CURA" => .ok .CURA
  | "BUFF_DEFESA" => .ok .BUFF_DEFESA
  | "BUFF_ATAQUE" => .ok .BUFF_ATAQUE
  | "DEBUFF" => .ok .DEBUFF
  | a => .error (.attributeError ("TipoHabilidade has no attribute " ++ a))

/-- `src/core/models.py`, `Equipamento` (display-only fields
`descricao`/`preco`/`raridade` are not read by combat and are omitted). -/
structure Equipamento where
  nome : String
  tipo : TipoEquipamento
  bonus_ataque : Int
  bonus_defesa : Int
  deriving Repr, DecidableEq

/-- `src/core/models.py`, `Item` (the `categoria` display field is omitted). -/
structure Item where
  nome : String
  descricao : String
  cura_hp : Int
  cura_mp : Int
  cura_veneno : Int
  preco_venda : Int
  quantidade : Int := 1
  stack_max : Int := 99
  deriving Repr, DecidableEq

/-- `src/core/models.py`, `Habilidade`. -/
structure Habilidade where
  nome : String
  descricao : String
  custo_mp : Int
  tipo : TipoHabilidade
  valor_efeito : Int
  cooldown : Int := 0
  nivel_requerido : Int := 1
  elemento : String := "neutro"
  deriving Repr, DecidableEq

/-- `src/core/models.py`, `Personagem`.  The dataclass fields, minus the
non-combat bookkeeping (`tutoriais`, `ajudou_marinheiro`).  `hp`/`mp` are
ordinary fields here; `__post_init__` initialises them to the maxima, which is
captured by `Personagem.mk_full` below. -/
structure Personagem where
  nome : String
  hp_max : Int
  mp_max : Int
  ataque_base : Int
  defesa_base : Int
  xp_dado : Int := 0
  ouro_dado : Int := 0
  hp : Int
  mp : Int
  nivel : Int := 1
  xp : Int := 0
  xp_proximo_nivel : Int := 100
  ouro : Int := 0
  fase_atual : Int := 1
  turnos_veneno : Int := 0
  dano_por_turno_veneno : Int := 0
  turnos_buff_defesa : Int := 0
  turnos_furia : Int := 0
  turnos_regeneracao : Int := 0
  arma_equipada : Option Equipamento := none
  armadura_equipada : Option Equipamento := none
  escudo_equipada : Option Equipamento := none
  inventario : List Item := []
  habilidades_conhecidas : List Habilidade := []
  deriving Repr, DecidableEq

/-- `Personagem.__post_init__`: a character is created with full HP/MP. -/
def Personagem.mk_full (nome : String) (hp_max mp_max ataque_base defesa_base : Int) : Personagem :=
  { nome := nome, hp_max := hp_max, mp_max := mp_max, ataque_base := ataque_base,
    defesa_base := defesa_base, hp := hp_max, mp := mp_max }

/-- `Personagem.ataque_total`: base attack plus the equipped weapon bonus. -/
def Personagem.ataque_total (p : Personagem) : Int :=
  let bonus_arma := match p.arma_equipada with
    | some a => a.bonus_ataque
    | none => 0
  p.ataque_base + bonus_arma

/-- `Personagem.defesa_total`: base defense plus armour, shield and the flat
+5 bonus while the defense buff is active. -/
def Personagem.defesa_total (p : Personagem) : Int :=
  let bonus_armadura := match p.armadura_equipada with
    | some a => a.bonus_defesa
    | none => 0
  let bonus_escudo := match p.escudo_equipada with
    | some e => e.bonus_defesa
    | none => 0
  let bonus_buff : Int := if p.turnos_buff_defesa > 0 then 5 else 0
  p.defesa_base + bonus_armadura + bonus_escudo + bonus_buff

/-- `Personagem.is_alive`: `hp > 0`. -/
def Personagem.is_alive (p : Personagem) : Bool := p.hp > 0

/-- `Personagem.is_dead`: `hp <= 0`. -/
def Personagem.is_dead (p : Personagem) : Bool := p.hp ≤ 0

/-- `Personagem.hp_percentage`: `(hp / hp_max) * 100`, 0 when `hp_max <= 0`. -/
def Personagem.hp_percentage (p : Personagem) : ℚ :=
  if p.hp_max > 0 then ((p.hp : ℚ) / (p.hp_max : ℚ)) * 100 else 0

/-- `Personagem.is_poisoned`: `turnos_veneno > 0`. -/
def Personagem.is_poisoned (p : Personagem) : Bool := p.turnos_veneno > 0

/-- `Personagem.heal`: raises `CharacterStateError` on a dead character,
otherwise clamps to `hp_max` and returns the amount actually restored. -/
def Personagem.heal (p : Personagem) (amount : Int) : PyResult Personagem Int :=
  if p.is_dead then
    .error p (.characterStateError "Não é possível curar um personagem morto")
  else
    let newHp := min p.hp_max (p.hp + amount)
    .ok { p with hp := newHp } (newHp - p.hp)

/-- `Personagem.restore_mp`: clamps to `mp_max`, returns the amount restored. -/
def Personagem.restore_mp (p : Personagem) (amount : Int) : PyResult Personagem Int :=
  let newMp := min p.mp_max (p.mp + amount)
  .ok { p with mp := newMp } (newMp - p.mp)

/-- `Personagem.take_damage`: raises `ValueError` on negative damage,
otherwise clamps HP at 0 and returns the damage actually dealt
(`min damage hp`). -/
def Personagem.take_damage (p : Personagem) (damage : Int) : PyResult Personagem Int :=
  if damage < 0 then
    .error p (.valueError "Dano não pode ser negativo")
  else
    .ok { p with hp := max 0 (p.hp - damage) } (min damage p.hp)

/-- `Personagem.spend_mp`: raises `ValueError` on negative cost; returns
`true` and deducts on sufficient MP, `false` without mutating otherwise. -/
def Personagem.spend_mp (p : Personagem) (cost : Int) : PyResult Personagem Bool :=
  if cost < 0 then
    .error p (.valueError "Custo de MP não pode ser negativo")
  else if p.mp ≥ cost then
    .ok { p with mp := p.mp - cost } true
  else
    .ok p false

/-- `Personagem.knows_skill`: any known ability has the given name. -/
def Personagem.knows_skill (p : Personagem) (skill_name : String) : Bool :=
  p.habilidades_conhecidas.any (fun h => h.nome == skill_name)

/-- `Personagem.can_use_skill`: enough MP, enough level, and the ability is in
the known list (dataclass `in`, i.e. structural equality). -/
def Personagem.can_use_skill (p : Personagem) (skill : Habilidade) : Bool :=
  p.mp ≥ skill.custo_mp ∧ p.nivel ≥ skill.nivel_requerido ∧
    p.habilidades_conhecidas.contains skill

/-- The `# Veneno` section of `Personagem.process_status_effects`: poison
damage (reported capped at current HP), counter decrement, cure message when
the counter reaches 0. -/
def poison_step (p : Personagem) : List String × Personagem :=
  if p.turnos_veneno > 0 then
    let damage := min p.dano_por_turno_veneno p.hp
    let q := { p with hp := max 0 (p.hp - p.dano_por_turno_veneno),
                      turnos_veneno := p.turnos_veneno - 1 }
    let base := ["☠️ " ++ p.nome ++ " sofre " ++ toString damage ++ " de dano por veneno!"]
    if q.turnos_veneno ≤ 0 then
      (base ++ ["✨ " ++ p.nome ++ " se recupera do veneno."],
       { q with dano_por_turno_veneno := 0 })
    else (base, q)
  else ([], p)

/-- The `# Buff de defesa` section of `Personagem.process_status_effects`:
counter decrement with an expiry announcement at 0. -/
def defense_buff_step (p : Personagem) : List String × Personagem :=
  if p.turnos_buff_defesa > 0 then
    let q := { p with turnos_buff_defesa := p.turnos_buff_defesa - 1 }
    if q.turnos_buff_defesa ≤ 0 then
      (["🛡️ O buff de defesa de " ++ p.nome ++ " termina."], q)
    else ([], q)
  else ([], p)

/-- The `# Fúria` section of `Personagem.process_status_effects`: counter
decrement with an expiry announcement at 0. -/
def fury_step (p : Personagem) : List String × Personagem :=
  if p.turnos_furia > 0 then
    let q := { p with turnos_furia := p.turnos_furia - 1 }
    if q.turnos_furia ≤ 0 then
      (["😠 A fúria de " ++ p.nome ++ " termina."], q)
    else ([], q)
  else ([], p)

/-- The `# Regeneração` section of `Personagem.process_status_effects`: heal
`min(5, hp_max - hp)` when positive, counter decrement, expiry message. -/
def regen_step (p : Personagem) : List String × Personagem :=
  if p.turnos_regeneracao > 0 then
    let heal_amount := min 5 (p.hp_max - p.hp)
    let (healMsgs, q) :=
      if heal_amount > 0 then
        (["💚 " ++ p.nome ++ " regenera " ++ toString heal_amount ++ " HP."],
         { p with hp := p.hp + heal_amount })
      else ([], p)
    let q2 := { q with turnos_regeneracao := q.turnos_regeneracao - 1 }
    if q2.turnos_regeneracao ≤ 0 then
      (healMsgs ++ ["✨ A regeneração de " ++ p.nome ++ " termina."], q2)
    else (healMsgs, q2)
  else ([], p)

/-- `Personagem.process_status_effects`: poison, defense-buff expiry, fury
expiry and regeneration, in that textual order, returning the concatenated
messages of the four sections. -/
def Personagem.process_status_effects (p : Personagem) : List String × Personagem :=
  let (msgs1, p1) := poison_step p
  let (msgs2, p2) := defense_buff_step p1
  let (msgs3, p3) := fury_step p2
  let (msgs4, p4) := regen_step p3
  (msgs1 ++ msgs2 ++ msgs3 ++ msgs4, p4)

/-! ### Elemental system (`src/core/elemental_system.py`) -/

/-- `Element`: the nine elements of the game.  There is no `AGUA` (water)
member, although `_initialize_chart` refers to one. -/
inductive Element where
  | NEUTRO | FOGO | GELO | SOMBRA | LUZ | NATUREZA | ARCANO | FISICO | DIVINO
  deriving Repr, DecidableEq

/-- Python attribute access `Element.<name>`: raises `AttributeError` for any
name that is not one of the nine members (in particular for `AGUA`). -/
def elementAttr : String → Except PyError Element
  | "NEUTRO" => .ok .NEUTRO
  | "FOGO" => .ok .FOGO
  | "GELO" => .ok .GELO
  | "SOMBRA" => .ok .SOMBRA
  | "LUZ" => .ok .LUZ
  | "NATUREZA" => .ok .NATUREZA
  | "ARCANO" => .ok .ARCANO
  | "FISICO" => .ok .FISICO
  | "DIVINO" => .ok .DIVINO
  | a => .error (.attributeError ("Element has no attribute " ++ a))

/-- The effectiveness table `[attacker][defender] -> modifier`. -/
def ElementChart : Type := Element → Element → ℚ

/-- One `chart[a][d] = v` assignment. -/
def chartSet (c : ElementChart) (a d : Element) (v : ℚ) : ElementChart :=
  fun x y => if x = a ∧ y = d then v else c x y

/-- `ElementalChart._initialize_chart`, assignment for assignment in source
order.  The `Fogo` block ends with `chart[Element.FOGO][Element.AGUA] = 0.5`,
and `Element.AGUA` does not exist, so the whole initialisation raises
`AttributeError` (this runs from `ElementalChart.__init__`, which runs from
the module-level `elemental_system = ElementalSystem()`). -/
def initialize_chart : Except PyError ElementChart := do
  -- Inicializar com valores neutros
  let chart : ElementChart := fun _ _ => 1.0
  -- Fogo
  let chart := chartSet chart .FOGO .GELO 1.5
  let chart := chartSet chart .FOGO .NATUREZA 1.5
  let chart := chartSet chart .FOGO .FOGO 0.5
  let agua ← elementAttr "AGUA"
  let chart := chartSet chart .FOGO agua 0.5
  -- Gelo
  let chart := chartSet chart .GELO .FOGO 0.5
  let chart := chartSet chart .GELO .NATUREZA 1.5
  let chart := chartSet chart .GELO .GELO 0.5
  -- Sombra
  let chart := chartSet chart .SOMBRA .LUZ 1.5
  let chart := chartSet chart .SOMBRA .DIVINO 1.5
  let chart := chartSet chart .SOMBRA .SOMBRA 0.5
  -- Luz
  let chart := chartSet chart .LUZ .SOMBRA 1.5
  let chart := chartSet chart .LUZ .ARCANO 1.2
  let chart := chartSet chart .LUZ .LUZ 0.5
  -- Natureza
  let chart := chartSet chart .NATUREZA .FISICO 0.8
  let chart := chartSet chart .NATUREZA .ARCANO 1.3
  let chart := chartSet chart .NATUREZA .FOGO 0.5
  let chart := chartSet chart .NATUREZA .GELO 0.5
  -- Arcano
  let chart := chartSet chart .ARCANO .FISICO 1.3
  let chart := chartSet chart .ARCANO .NATUREZA 0.7
  let chart := chartSet chart .ARCANO .ARCANO 0.5
  -- Físico
  let chart := chartSet chart .FISICO .ARCANO 0.7
  let chart := chartSet chart .FISICO .NATUREZA 1.2
  let chart := chartSet chart .FISICO .SOMBRA 0.8
  -- Divino
  let chart := chartSet chart .DIVINO .SOMBRA 2.0
  let chart := chartSet chart .DIVINO .ARCANO 1.3
  let chart := chartSet chart .DIVINO .DIVINO 0.5
  return chart

/-- `ElementalChart.get_effectiveness` on a constructed chart: plain lookup
with default 1.0 (the defaults never fire for genuine `Element` arguments). -/
def get_effectiveness (c : ElementChart) (attacker_element defender_element : Element) : ℚ :=
  c attacker_element defender_element

/-! ### Enemy AI engine (`src/core/enemy_ai.py`)

The engine receives the two `Personagem` objects and probes them with
`hasattr`/attribute access by name, so the embedding gives `Personagem` an
explicit integer attribute table. -/

/-- Integer-valued attributes of a `Personagem` by Python attribute name.
`hp_atual` and `mp_atual` are not dataclass fields (the fields are `hp` and
`mp`), so looking them up yields `none` (`hasattr` is false). -/
def Personagem.getattrInt (p : Personagem) : String → Option Int
  | "hp_max" => some p.hp_max
  | "mp_max" => some p.mp_max
  | "ataque_base" => some p.ataque_base
  | "defesa_base" => some p.defesa_base
  | "xp_dado" => some p.xp_dado
  | "ouro_dado" => some p.ouro_dado
  | "hp" => some p.hp
  | "mp" => some p.mp
  | "nivel" => some p.nivel
  | "xp" => some p.xp
  | "xp_proximo_nivel" => some p.xp_proximo_nivel
  | "ouro" => some p.ouro
  | "fase_atual" => some p.fase_atual
  | "turnos_veneno" => some p.turnos_veneno
  | "dano_por_turno_veneno" => some p.dano_por_turno_veneno
  | "turnos_buff_defesa" => some p.turnos_buff_defesa
  | "turnos_furia" => some p.turnos_furia
  | "turnos_regeneracao" => some p.turnos_regeneracao
  | _ => none

/-- `EnemyAI._get_hp_percentage`: `hp_atual / hp_max` when both attributes
exist and `hp_max > 0`, otherwise 1.0. -/
def ai_get_hp_percentage (c : Personagem) : ℚ :=
  match c.getattrInt "hp_atual", c.getattrInt "hp_max" with
  | some hpAtual, some hpMax =>
      if hpMax > 0 then (hpAtual : ℚ) / (hpMax : ℚ) else 1.0
  | _, _ => 1.0

/-- `EnemyAI._get_mp_percentage`: `mp_atual / mp_max` when both attributes
exist and `mp_max > 0`, otherwise 1.0. -/
def ai_get_mp_percentage (c : Personagem) : ℚ :=
  match c.getattrInt "mp_atual", c.getattrInt "mp_max" with
  | some mpAtual, some mpMax =>
      if mpMax > 0 then (mpAtual : ℚ) / (mpMax : ℚ) else 1.0
  | _, _ => 1.0

/-- `EnemyAI._evaluate_condition`: the fixed condition table, defaulting to
`False` for unknown condition strings. -/
def ai_evaluate_condition (condition : String) (enemy player : Personagem) (turn_count : Int) : Bool :=
  let enemy_hp_pct := ai_get_hp_percentage enemy
  let enemy_mp_pct := ai_get_mp_percentage enemy
  let player_hp_pct := ai_get_hp_percentage player
  match condition with
  | "hp_above_75" => decide (enemy_hp_pct > 0.75)
  | "hp_above_50" => decide (enemy_hp_pct > 0.50)
  | "hp_above_25" => decide (enemy_hp_pct > 0.25)
  | "hp_below_75" => decide (enemy_hp_pct ≤ 0.75)
  | "hp_below_50" => decide (enemy_hp_pct ≤ 0.50)
  | "hp_below_25" => decide (enemy_hp_pct ≤ 0.25)
  | "mp_above_50" => decide (enemy_mp_pct > 0.50)
  | "mp_below_50" => decide (enemy_mp_pct ≤ 0.50)
  | "first_turn" => decide (turn_count = 1)
  | "player_hp_low" => decide (player_hp_pct < 0.3)
  | "player_hp_high" => decide (player_hp_pct > 0.7)
  | "always" => true
  | _ => false

/-- `AISpecialCondition` (`enemy_ai.py`): a one-shot special trigger. -/
structure AISpecialCondition where
  trigger : String
  action : String
  text : String
  used : Bool := false
  deriving Repr, DecidableEq

/-- `AIPattern` (`enemy_ai.py`). -/
structure AIPattern where
  condition : String
  actions : List String
  weight : ℚ := 1.0
  deriving Repr, DecidableEq

/-- `EnemyAI._check_special_conditions`: scan the special conditions in
declaration order, fire the first unused satisfied trigger (marking it used)
and short-circuit.  Returns the `(action, text)` of the fired trigger, if
any, together with the updated condition list. -/
def ai_check_special_conditions (conds : List AISpecialCondition)
    (enemy player : Personagem) (turn_count : Int) :
    Option (String × String) × List AISpecialCondition :=
  match conds with
  | [] => (none, [])
  | c :: rest =>
    if c.used then
      let (r, rest2) := ai_check_special_conditions rest enemy player turn_count
      (r, c :: rest2)
    else
      let should_trigger :=
        ((c.trigger == "first_turn") && (turn_count == 1)) ||
        ((c.trigger == "low_hp") && decide (ai_get_hp_percentage enemy < 0.25)) ||
        ((c.trigger == "player_low_hp") && decide (ai_get_hp_percentage player < 0.3))
      if should_trigger then
        (some (c.action, c.text), { c with used := true } :: rest)
      else
        let (r, rest2) := ai_check_special_conditions rest enemy player turn_count
        (r, c :: rest2)

/-- `EnemyAI._get_applicable_patterns`: the patterns whose condition holds. -/
def ai_get_applicable_patterns (patterns : List AIPattern)
    (enemy player : Personagem) (turn_count : Int) : List AIPattern :=
  patterns.filter (fun p => ai_evaluate_condition p.condition enemy player turn_count)

/-! ### Combat manager (`src/core/managers/combat_manager.py`)

Randomness is injected: every `random.randint`/`random.choice` draw of a code
path is an explicit argument, as the specification requires the random source
to be injectable. -/

/-- `CombatAction` (`combat_manager.py`). -/
inductive CombatAction where
  | ATTACK | SKILL | ITEM | ESCAPE
  deriving Repr, DecidableEq

/-- `CombatResult` (`combat_manager.py`). -/
inductive CombatResult where
  | ONGOING | PLAYER_WIN | PLAYER_DEAD | ESCAPED
  deriving Repr, DecidableEq

/-- `EventType` (`src/core/managers/event_manager.py`).  Note that there is
no `COMBAT_ERROR` member, although `_handle_corrupted_combat` refers to one. -/
inductive EventType where
  | COMBAT_START | COMBAT_END | PLAYER_LEVEL_UP | PLAYER_DEATH | ITEM_USED
  | SKILL_USED | EQUIPMENT_CHANGED | PHASE_COMPLETED | SAVE_GAME | LOAD_GAME
  | ERROR_OCCURRED
  deriving Repr, DecidableEq

/-- Python attribute access `EventType.<name>`: raises `AttributeError` for
any name that is not a member (in particular for `COMBAT_ERROR`). -/
def eventTypeAttr : String → Except PyError EventType
  | "COMBAT_START" => .ok .COMBAT_START
  | "COMBAT_END" => .ok .COMBAT_END
  | "PLAYER_LEVEL_UP" => .ok .PLAYER_LEVEL_UP
  | "PLAYER_DEATH" => .ok .PLAYER_DEATH
  | "ITEM_USED" => .ok .ITEM_USED
  | "SKILL_USED" => .ok .SKILL_USED
  | "EQUIPMENT_CHANGED" => .ok .EQUIPMENT_CHANGED
  | "PHASE_COMPLETED" => .ok .PHASE_COMPLETED
  | "SAVE_GAME" => .ok .SAVE_GAME
  | "LOAD_GAME" => .ok .LOAD_GAME
  | "ERROR_OCCURRED" => .ok .ERROR_OCCURRED
  | a => .error (.attributeError ("EventType has no attribute " ++ a))

/-- A fired `emit_event` call: event kind plus string-rendered payload. -/
structure GameEvent where
  type : EventType
  data : List (String × String)
  deriving Repr, DecidableEq

/-- `datetime.now()` as referenced inside `combat_manager.py`: the module
never imports `datetime`, so the name lookup raises `NameError`. -/
def datetimeNow : Except PyError String :=
  .error (.nameError "name datetime is not defined")

/-- `COMBAT_CONFIG` (`src/config/settings.py`). -/
def base_crit_chance : Int := 15

/-- `COMBAT_CONFIG["crit_multiplier"]`. -/
def crit_multiplier : ℚ := 1.75

/-- `COMBAT_CONFIG["escape_base_chance"]`. -/
def escape_base_chance : Int := 60

/-- Python `int()` on an (exactly represented) float: truncation toward 0. -/
def pyTrunc (q : ℚ) : Int := if q < 0 then ⌈q⌉ else ⌊q⌋

/-- Python `round()` on an (exactly represented) float: round half to even. -/
def pyRoundHalfEven (q : ℚ) : Int :=
  let f := ⌊q⌋
  let frac := q - (f : ℚ)
  if frac < 1 / 2 then f
  else if frac > 1 / 2 then f + 1
  else if f % 2 = 0 then f else f + 1

/-- The active combat session (`self._current_combat` dictionary).  `player`
and `enemy` are `Option`-valued to embed the corruption mode the validator
probes for (a missing/None character reference); `start_combat` always stores
`some`. -/
structure CombatDict where
  player : Option Personagem
  enemy : Option Personagem
  turn_count : Int
  log : List String
  result : CombatResult
  deriving Repr, DecidableEq

/-- The `@handle_exceptions(reraise=True)` decorator on the public entry
points: a `ZorgException` is re-raised unchanged, any other exception is
replaced by a bare `ZorgException` ("Erro inesperado em ..."). -/
def handleExceptionsReraise (fname : String) (e : PyError) : PyError :=
  if e.isZorg then e else .zorgUnexpected ("Erro inesperado em " ++ fname)

/-- `_process_attack` damage before the minimum-1 clamp (lines 153-160):
critical damage is `int(base_damage * crit_multiplier - defesa_total * 0.5)`,
normal damage is `base_damage - defesa_total`, with
`base_damage = ataque_total + randint(0, 6)`. -/
def attack_total_damage (attacker defender : Personagem) (is_critical : Bool) (dmgRoll : Int) : Int :=
  let base_damage := attacker.ataque_total + dmgRoll
  if is_critical then
    pyTrunc ((base_damage : ℚ) * crit_multiplier - (defender.defesa_total : ℚ) * 0.5)
  else
    base_damage - defender.defesa_total

/-- `_process_attack`: crit roll (`randint(1,100) <= base_crit_chance +
nivel*2`), damage roll (`randint(0,6)`), clamp to at least 1, apply via
`take_damage`.  State is the `(attacker, defender)` pair. -/
def process_attack (attacker defender : Personagem) (critRoll dmgRoll : Int) :
    PyResult (Personagem × Personagem) (List String) :=
  let crit_chance := base_crit_chance + attacker.nivel * 2
  let is_critical := decide (critRoll ≤ crit_chance)
  let msgs := if is_critical then ["[b yellow]GOLPE CRÍTICO![/b yellow]"] else []
  let total_damage := max 1 (attack_total_damage attacker defender is_critical dmgRoll)
  match defender.take_damage total_damage with
  | .error d e => .error (attacker, d) e
  | .ok d actual_damage =>
      .ok (attacker, d)
        (msgs ++ [attacker.nome ++ " ataca " ++ defender.nome ++ " e causa [b]" ++
          toString actual_damage ++ "[/b] de dano!"])

/-- `_process_skill_use`: find the ability by name, check `can_use_skill`
(raising `InsufficientResourcesError` or `InvalidActionError`), spend MP,
then dispatch on the ability type.  After the three existing branches the
`elif` chain evaluates `TipoHabilidade.FURIA`, so any remaining type raises
`AttributeError` rather than reaching the final `InvalidActionError`.
Returns the messages and the emitted `SKILL_USED` event. -/
def process_skill_use (user target : Personagem) (skill_name : String) :
    PyResult (Personagem × Personagem) (List String × List GameEvent) :=
  match user.habilidades_conhecidas.find? (fun h => h.nome == skill_name) with
  | none => .error (user, target) (.resourceNotFoundError "habilidade" skill_name)
  | some skill =>
    if ¬ user.can_use_skill skill then
      if user.mp < skill.custo_mp then
        .error (user, target) (.insufficientResourcesError "MP" skill.custo_mp user.mp)
      else
        .error (user, target)
          (.invalidActionError ("Não é possível usar a habilidade " ++ skill_name))
    else
      match user.spend_mp skill.custo_mp with
      | .error u e => .error (u, target) e
      | .ok u _ =>
        let msgs0 := [u.nome ++ " usa [b]" ++ skill.nome ++ "[/b]!"]
        let dispatched : PyResult (Personagem × Personagem) (List String) :=
          if skill.tipo = .ATAQUE then
            let damage := max 1 (skill.valor_efeito + u.ataque_base - target.defesa_total)
            match target.take_damage damage with
            | .error t e => .error (u, t) e
            | .ok t actual =>
                .ok (u, t) [target.nome ++ " sofre [b red]" ++ toString actual ++
                  "[/b red] de dano mágico!"]
          else if skill.tipo = .CURA then
            match u.heal skill.valor_efeito with
            | .error u2 e => .error (u2, target) e
            | .ok u2 heal_amount =>
              if heal_amount > 0 then
                .ok (u2, target) [u.nome ++ " se cura em [b]" ++ toString heal_amount ++ " HP[/b]."]
              else
                .ok (u2, target) [u.nome ++ " já está com a vida cheia."]
          else if skill.tipo = .BUFF_DEFESA then
            .ok ({ u with turnos_buff_defesa := 3 }, target)
              ["A defesa de " ++ u.nome ++ " aumenta por [b]3 turnos[/b]!"]
          else
            match tipoHabilidadeAttr "FURIA" with
            | .error e => .error (u, target) e
            | .ok furia =>
              if skill.tipo = furia then
                .ok ({ u with turnos_furia := 4 }, target)
                  [u.nome ++ " entra em furia! Seu ataque aumenta, mas sua defesa diminui por [b]4 turnos[/b]!"]
              else
                match tipoHabilidadeAttr "REGENERACAO" with
                | .error e => .error (u, target) e
                | .ok regen =>
                  if skill.tipo = regen then
                    .ok ({ u with turnos_regeneracao := 5 }, target)
                      [u.nome ++ " ativa a regeneracao vital! HP sera recuperado a cada turno por [b]5 turnos[/b]!"]
                  else
                    .error (u, target) (.invalidActionError "Tipo de habilidade desconhecido")
        match dispatched with
        | .error s e => .error s e
        | .ok (u2, t2) effectMsgs =>
            .ok (u2, t2)
              (msgs0 ++ effectMsgs,
               [⟨.SKILL_USED, [("user", u.nome), ("skill", skill.nome),
                 ("target", target.nome), ("mp_cost", toString skill.custo_mp)]⟩])

/-- `Personagem.remove_item_from_inventory` over the inventory list: the
first sufficiently stacked item with the given name is decremented and
dropped when its quantity reaches 0. -/
def removeItemFromList (l : List Item) (item_name : String) (quantity : Int) :
    List Item × Bool :=
  match l with
  | [] => ([], false)
  | i :: rest =>
    if i.nome == item_name ∧ i.quantidade ≥ quantity then
      let i2 := { i with quantidade := i.quantidade - quantity }
      (if i2.quantidade ≤ 0 then rest else i2 :: rest, true)
    else
      let (rest2, b) := removeItemFromList rest item_name quantity
      (i :: rest2, b)

/-- `_process_item_use`: apply each nonzero effect field, emit a neutral
message when nothing applied, always remove one unit, emit `ITEM_USED`. -/
def process_item_use (user : Personagem) (item_name : String) :
    PyResult Personagem (List String × List GameEvent) :=
  match user.inventario.find? (fun i => i.nome == item_name) with
  | none => .error user (.resourceNotFoundError "item no inventário" item_name)
  | some item =>
    let step1 : PyResult Personagem (List String × Bool) :=
      if item.cura_hp > 0 then
        match user.heal item.cura_hp with
        | .error u e => .error u e
        | .ok u heal_amount =>
          if heal_amount > 0 then
            .ok u ([user.nome ++ " usa [b]" ++ item_name ++ "[/b] e recupera [b]" ++
              toString heal_amount ++ " HP[/b]!"], true)
          else .ok u ([], false)
      else .ok user ([], false)
    match step1 with
    | .error u e => .error u e
    | .ok u1 (msgs1, applied1) =>
      let (msgs2, applied2, u2) :=
        if item.cura_mp > 0 then
          match u1.restore_mp item.cura_mp with
          | .ok u mp_amount =>
            if mp_amount > 0 then
              ([u1.nome ++ " usa [b]" ++ item_name ++ "[/b] e recupera [b]" ++
                toString mp_amount ++ " MP[/b]!"], true, u)
            else ([], false, u)
          | .error u _ => ([], false, u)
        else ([], false, u1)
      let (msgs3, applied3, u3) :=
        if item.cura_veneno > 0 ∧ u2.is_poisoned then
          ([u2.nome ++ " usa [b]" ++ item_name ++ "[/b] e se cura do veneno!"], true,
           { u2 with turnos_veneno := 0, dano_por_turno_veneno := 0 })
        else ([], false, u2)
      let effects_applied := applied1 || applied2 || applied3
      let msgs := msgs1 ++ msgs2 ++ msgs3 ++
        (if effects_applied then []
         else [u3.nome ++ " usa [b cyan]" ++ item_name ++ "[/b cyan], mas nada acontece."])
      let (inv2, _) := removeItemFromList u3.inventario item_name 1
      .ok { u3 with inventario := inv2 }
        (msgs,
         [⟨.ITEM_USED, [("user", u3.nome), ("item", item_name),
           ("effects_applied", toString effects_applied)]⟩])

/-- `_process_escape`: clamp the chance to `[10, 90]`, roll `randint(1,100)`;
returns the messages and whether the escape succeeded (the caller records
`ESCAPED`). -/
def process_escape (player enemy : Personagem) (escapeRoll : Int) : List String × Bool :=
  let escape_chance := escape_base_chance + (player.nivel - enemy.nivel) * 5
  let escape_chance := max 10 (min 90 escape_chance)
  if escapeRoll ≤ escape_chance then
    (["Voce conseguiu escapar do combate!"], true)
  else
    (["Voce tentou fugir, mas nao conseguiu escapar!"], false)

/-- One list comprehension of `_process_enemy_ai`, e.g.
`[h for h in enemy.habilidades_conhecidas if h.tipo == TipoHabilidade.CURA
and enemy.mp >= h.custo_mp]`: the enum member is looked up per element, so on
a non-empty list a missing member raises `AttributeError`. -/
def comprehensionByTipo (l : List Habilidade) (tipoName : String) (mp : Int) :
    Except PyError (List Habilidade) :=
  match l with
  | [] => .ok []
  | h :: rest => do
    let tp ← tipoHabilidadeAttr tipoName
    let tail ← comprehensionByTipo rest tipoName mp
    .ok (if h.tipo = tp ∧ mp ≥ h.custo_mp then h :: tail else tail)

/-- `random.choice` with an injected draw: element `i % length`. -/
def pickSkill (l : List Habilidade) (i : Nat) : Option Habilidade :=
  l.get? (i % l.length)

/-- The injected random draws consumed by one enemy turn. -/
structure EnemyAiRolls where
  healIdx : Nat := 0
  regenIdx : Nat := 0
  buffIdx : Nat := 0
  furiaIdx : Nat := 0
  attackIdx : Nat := 0
  attackChanceRoll : Int := 100
  critRoll : Int := 100
  dmgRoll : Int := 0
  poisonRoll : Int := 100
  deriving Repr, DecidableEq

/-- `_process_enemy_ai`: when the enemy knows any ability and has MP, the
five type-filter comprehensions run first (the third one evaluates
`TipoHabilidade.REGENERACAO`); then the five-way priority choice; then the
chosen skill is executed inside `try`, falling back to a basic attack on
`InsufficientResourcesError`/`InvalidActionError`; finally the 50% poison
touch.  State is the `(enemy, player)` pair; returns messages and events. -/
def process_enemy_ai (enemy player : Personagem) (rolls : EnemyAiRolls) :
    PyResult (Personagem × Personagem) (List String × List GameEvent) :=
  let selection : Except PyError (Option Habilidade) :=
    if enemy.habilidades_conhecidas ≠ [] ∧ enemy.mp > 0 then do
      let healing_skills ← comprehensionByTipo enemy.habilidades_conhecidas "CURA" enemy.mp
      let buff_skills ← comprehensionByTipo enemy.habilidades_conhecidas "BUFF_DEFESA" enemy.mp
      let regeneracao_skills ← comprehensionByTipo enemy.habilidades_conhecidas "REGENERACAO" enemy.mp
      let furia_skills ← comprehensionByTipo enemy.habilidades_conhecidas "FURIA" enemy.mp
      let attack_skills ← comprehensionByTipo enemy.habilidades_conhecidas "ATAQUE" enemy.mp
      if enemy.hp_percentage < 40 ∧ healing_skills ≠ [] then
        .ok (pickSkill healing_skills rolls.healIdx)
      else if enemy.hp_percentage < 60 ∧ regeneracao_skills ≠ [] ∧ ¬ enemy.turnos_regeneracao > 0 then
        .ok (pickSkill regeneracao_skills rolls.regenIdx)
      else if enemy.hp_percentage > 50 ∧ buff_skills ≠ [] ∧ ¬ enemy.turnos_buff_defesa > 0 then
        .ok (pickSkill buff_skills rolls.buffIdx)
      else if enemy.hp_percentage > 70 ∧ furia_skills ≠ [] ∧ ¬ enemy.turnos_furia > 0 then
        .ok (pickSkill furia_skills rolls.furiaIdx)
      else if attack_skills ≠ [] ∧ rolls.attackChanceRoll ≤ 60 then
        .ok (pickSkill attack_skills rolls.attackIdx)
      else
        .ok none
    else .ok none
  match selection with
  | .error e => .error (enemy, player) e
  | .ok skill_to_use =>
    let acted : PyResult (Personagem × Personagem) (List String × List GameEvent) :=
      match skill_to_use with
      | some skill =>
        match process_skill_use enemy player skill.nome with
        | .ok (en, pl) (msgs, evs) => .ok (en, pl) (msgs, evs)
        | .error (en, pl) err =>
          match err with
          | .insufficientResourcesError _ _ _ =>
            -- Se não puder usar a habilidade, volta a atacar
            (match process_attack en pl rolls.critRoll rolls.dmgRoll with
             | .error s e => .error s e
             | .ok s msgs => .ok s (msgs, []))
          | .invalidActionError _ =>
            (match process_attack en pl rolls.critRoll rolls.dmgRoll with
             | .error s e => .error s e
             | .ok s msgs => .ok s (msgs, []))
          | _ => .error (en, pl) err
      | none =>
        match process_attack enemy player rolls.critRoll rolls.dmgRoll with
        | .error s e => .error s e
        | .ok s msgs => .ok s (msgs, [])
    match acted with
    | .error s e => .error s e
    | .ok (en, pl) (msgs, evs) =>
      if en.dano_por_turno_veneno > 0 ∧ ¬ pl.is_poisoned then
        if rolls.poisonRoll ≤ 50 then
          .ok (en, { pl with turnos_veneno := 3,
                             dano_por_turno_veneno := en.dano_por_turno_veneno })
            (msgs ++ ["Voce foi envenenado!"], evs)
        else .ok (en, pl) (msgs, evs)
      else .ok (en, pl) (msgs, evs)

/-- Result of `_validate_combat_state`: the `{"valid": ..., "reason": ...}`
dictionary. -/
structure ValidationResult where
  valid : Bool
  reason : String
  deriving Repr, DecidableEq

/-- `_validate_combat_state`: missing characters, then the `hasattr` probes
(every probed name is a `Personagem` dataclass field, so those probes always
pass and are recorded here as comments), then the numeric checks, then the
dictionary-shape checks (structurally guaranteed by `CombatDict`). -/
def validate_combat_state (player enemy : Option Personagem) : ValidationResult :=
  match player with
  | none => ⟨false, "Player não encontrado"⟩
  | some p =>
    match enemy with
    | none => ⟨false, "Enemy não encontrado"⟩
    | some e =>
      -- required_player_attrs / required_enemy_attrs: all are dataclass fields
      if p.hp < 0 then ⟨false, "Player HP negativo"⟩
      else if e.hp < 0 then ⟨false, "Enemy HP negativo"⟩
      else if p.hp_max ≤ 0 then ⟨false, "Player HP máximo inválido"⟩
      else if e.hp_max ≤ 0 then ⟨false, "Enemy HP máximo inválido"⟩
      -- isinstance(self._current_combat, dict) and the required keys hold
      else ⟨true, "Estado válido"⟩

/-- `_handle_corrupted_combat`: inside `try`, after logging, the code calls
`emit_event(EventType.COMBAT_ERROR, {..., "timestamp":
datetime.now().isoformat()})`.  `EventType.COMBAT_ERROR` does not exist and
`datetime` is never imported in `combat_manager.py`, so the attempt raises,
the `except` swallows the exception, and the session is cleared with no event
emitted.  Returns the new session (always `none`) and the emitted events. -/
def handle_corrupted_combat (_cur : Option CombatDict) : Option CombatDict × List GameEvent :=
  let attempt : Except PyError GameEvent := do
    let et ← eventTypeAttr "COMBAT_ERROR"
    let ts ← datetimeNow
    .ok ⟨et, [("error_type", "corrupted_state"), ("timestamp", ts)]⟩
  match attempt with
  | .ok ev => (none, [ev])
  | .error _ => (none, [])

/-- `_check_combat_end`: validate the session, divert to
`_handle_corrupted_combat` on failure, otherwise record `PLAYER_DEAD` /
`PLAYER_WIN` and emit the corresponding event.  Nothing inside the outer
`try` raises in the embedded fragment, so its `except` (which would set
`PLAYER_WIN`) never fires. -/
def check_combat_end (cur : Option CombatDict) : Option CombatDict × List GameEvent :=
  match cur with
  | none => (none, [])
  | some cd =>
    let v := validate_combat_state cd.player cd.enemy
    if v.valid then
      match cd.player, cd.enemy with
      | some p, some e =>
        if p.is_dead then
          (some { cd with result := .PLAYER_DEAD },
           [⟨.PLAYER_DEATH, [("player_name", p.nome), ("enemy_name", e.nome),
             ("turn_count", toString cd.turn_count)]⟩])
        else if e.is_dead then
          (some { cd with result := .PLAYER_WIN },
           [⟨.COMBAT_END, [("winner", p.nome), ("loser", e.nome),
             ("turn_count", toString cd.turn_count)]⟩])
        else (some cd, [])
      | _, _ => (some cd, [])  -- unreachable: validation requires both present
    else
      -- logger.error, then the corrupted-state handler
      handle_corrupted_combat (some cd)

/-- The injected random draws consumed by one player turn. -/
structure TurnRolls where
  critRoll : Int := 100
  dmgRoll : Int := 0
  escapeRoll : Int := 100
  deriving Repr, DecidableEq

/-- `start_combat` before the decorator: `validate_not_none` raises
`ValueError` on a missing argument, dead participants raise `CombatError`,
otherwise the session dictionary is created and `COMBAT_START` emitted. -/
def start_combat_raw (cur : Option CombatDict) (player enemy : Option Personagem) :
    PyResult (Option CombatDict) (List GameEvent) :=
  match player with
  | none => .error cur (.valueError "jogador não pode ser None")
  | some p =>
    match enemy with
    | none => .error cur (.valueError "inimigo não pode ser None")
    | some e =>
      if ¬ p.is_alive then
        .error cur (.combatError "Jogador não pode iniciar combate morto")
      else if ¬ e.is_alive then
        .error cur (.combatError "Inimigo não pode iniciar combate morto")
      else
        .ok (some ⟨some p, some e, 0, [], .ONGOING⟩)
          [⟨.COMBAT_START, [("player_name", p.nome), ("enemy_name", e.nome),
            ("player_level", toString p.nivel), ("enemy_hp", toString e.hp_max)]⟩]

/-- `start_combat` with its `@handle_exceptions(reraise=True)` decorator. -/
def start_combat (cur : Option CombatDict) (player enemy : Option Personagem) :
    PyResult (Option CombatDict) (List GameEvent) :=
  match start_combat_raw cur player enemy with
  | .error s e => .error s (handleExceptionsReraise "start_combat" e)
  | r => r

/-- `process_player_turn` before the decorator: session/lifecycle checks,
dispatch on the action, then log/turn-count update and `_check_combat_end`.
The mutated characters stay aliased into the session dictionary even when the
dispatched action raises. -/
def process_player_turn_raw (cur : Option CombatDict) (action : CombatAction)
    (skill_name item_name : Option String) (rolls : TurnRolls) :
    PyResult (Option CombatDict) (List GameEvent) :=
  match cur with
  | none => .error none (.combatError "Nenhum combate ativo")
  | some cd =>
    if cd.result ≠ .ONGOING then
      .error (some cd) (.combatError "Combate já finalizado")
    else
      match cd.player, cd.enemy with
      | some player, some enemy =>
        if ¬ player.is_alive then
          .error (some cd) (.combatError "Jogador não pode agir - está morto")
        else
          let step : PyResult (Personagem × Personagem × CombatResult)
              (List String × List GameEvent) :=
            match action with
            | .ATTACK =>
              (match process_attack player enemy rolls.critRoll rolls.dmgRoll with
               | .error (p, e) err => .error (p, e, cd.result) err
               | .ok (p, e) msgs => .ok (p, e, cd.result) (msgs, []))
            | .SKILL =>
              (match skill_name with
               | none => .error (player, enemy, cd.result)
                   (.invalidActionError "Nome da habilidade não fornecido")
               | some name =>
                 match process_skill_use player enemy name with
                 | .error (p, e) err => .error (p, e, cd.result) err
                 | .ok (p, e) (msgs, evs) => .ok (p, e, cd.result) (msgs, evs))
            | .ITEM =>
              (match item_name with
               | none => .error (player, enemy, cd.result)
                   (.invalidActionError "Nome do item não fornecido")
               | some name =>
                 match process_item_use player name with
                 | .error p err => .error (p, enemy, cd.result) err
                 | .ok p (msgs, evs) => .ok (p, enemy, cd.result) (msgs, evs))
            | .ESCAPE =>
              let (msgs, escaped) := process_escape player enemy rolls.escapeRoll
              .ok (player, enemy, if escaped then .ESCAPED else cd.result) (msgs, [])
          match step with
          | .error (p, e, res) err =>
            .error (some { cd with player := some p, enemy := some e, result := res }) err
          | .ok (p, e, res) (msgs, evs) =>
            let cd2 := { cd with player := some p, enemy := some e, result := res,
                                 log := cd.log ++ msgs, turn_count := cd.turn_count + 1 }
            let (cd3, endEvs) := check_combat_end (some cd2)
            .ok cd3 (evs ++ endEvs)
      | _, _ =>
        .error (some cd) (.combatError "Estado de combate corrompido: personagens inválidos")

/-- `process_player_turn` with its `@handle_exceptions(reraise=True)`
decorator. -/
def process_player_turn (cur : Option CombatDict) (action : CombatAction)
    (skill_name item_name : Option String) (rolls : TurnRolls) :
    PyResult (Option CombatDict) (List GameEvent) :=
  match process_player_turn_raw cur action skill_name item_name rolls with
  | .error s e => .error s (handleExceptionsReraise "process_player_turn" e)
  | r => r

/-- `process_enemy_turn` before the decorator: no-op snapshot when the
session is missing is an error, finished session is a no-op; otherwise run
the enemy AI, apply both characters' status effects, log, and evaluate
end-of-combat. -/
def process_enemy_turn_raw (cur : Option CombatDict) (rolls : EnemyAiRolls) :
    PyResult (Option CombatDict) (List GameEvent) :=
  match cur with
  | none => .error none (.combatError "Nenhum combate ativo")
  | some cd =>
    if cd.result ≠ .ONGOING then .ok (some cd) []
    else
      match cd.player, cd.enemy with
      | some player, some enemy =>
        (match process_enemy_ai enemy player rolls with
         | .error (en, pl) e =>
           .error (some { cd with player := some pl, enemy := some en }) e
         | .ok (en, pl) (msgs, evs) =>
           let (pmsgs, pl2) := pl.process_status_effects
           let (emsgs, en2) := en.process_status_effects
           let cd2 := { cd with player := some pl2, enemy := some en2,
                                log := cd.log ++ msgs ++ pmsgs ++ emsgs }
           let (cd3, endEvs) := check_combat_end (some cd2)
           .ok cd3 (evs ++ endEvs))
      | _, _ =>
        .error (some cd) (.attributeError "NoneType has no attribute habilidades_conhecidas")

/-- `process_enemy_turn` with its `@handle_exceptions(reraise=True)`
decorator. -/
def process_enemy_turn (cur : Option CombatDict) (rolls : EnemyAiRolls) :
    PyResult (Option CombatDict) (List GameEvent) :=
  match process_enemy_turn_raw cur rolls with
  | .error s e => .error s (handleExceptionsReraise "process_enemy_turn" e)
  | r => r

/-- `get_combat_state` snapshot. -/
structure CombatSnapshot where
  active : Bool
  player : Option Personagem := none
  enemy : Option Personagem := none
  turn_count : Int := 0
  log : List String := []
  result : Option CombatResult := none
  deriving Repr, DecidableEq

/-- `get_combat_state`. -/
def get_combat_state : Option CombatDict → CombatSnapshot
  | none => { active := false }
  | some cd =>
    { active := true, player := cd.player, enemy := cd.enemy,
      turn_count := cd.turn_count, log := cd.log, result := some cd.result }

/-- `end_combat`: clear the session, returning the final snapshot. -/
def end_combat (cur : Option CombatDict) : Option CombatDict × CombatSnapshot :=
  match cur with
  | none => (none, { active := false })
  | some cd => (none, get_combat_state (some cd))

/-- `is_combat_active`. -/
def is_combat_active (cur : Option CombatDict) : Bool :=
  match cur with
  | none => false
  | some cd => decide (cd.result = .ONGOING)

/-! ### Concrete instances used by the theorems below -/

/-- HP/MP within bounds: the invariant of §8 of the specification. -/
def InVitalBounds (p : Personagem) : Prop :=
  0 ≤ p.hp ∧ p.hp ≤ p.hp_max ∧ 0 ≤ p.mp ∧ p.mp ≤ p.mp_max

/-- A session whose player has a negative HP field: one of the corruption
modes `_validate_combat_state` probes for. -/
def c1_bad_player : Personagem :=
  { nome := "Heroi", hp_max := 30, mp_max := 20, ataque_base := 5, defesa_base := 2,
    hp := -1, mp := 20 }

/-- A healthy enemy for the corrupted-session scenario. -/
def c1_enemy : Personagem :=
  { nome := "Monstro", hp_max := 25, mp_max := 10, ataque_base := 4, defesa_base := 1,
    hp := 25, mp := 10 }

/-- An ongoing session holding the corrupted player. -/
def c1_corrupt_cd : CombatDict :=
  { player := some c1_bad_player, enemy := some c1_enemy, turn_count := 3,
    log := [], result := .ONGOING }

/-- An ability of type `BUFF_ATAQUE`: one of the two enum members with no
branch in the `_process_skill_use` dispatch. -/
def c2_skill : Habilidade :=
  { nome := "Grito de Guerra", descricao := "Aumenta o ataque.", custo_mp := 5,
    tipo := .BUFF_ATAQUE, valor_efeito := 10 }

/-- A player who knows `c2_skill` and has ample MP. -/
def c2_user : Personagem :=
  { nome := "Heroi", hp_max := 30, mp_max := 20, ataque_base := 5, defesa_base := 2,
    hp := 30, mp := 20, habilidades_conhecidas := [c2_skill] }

/-- The target of the `c2_skill` use. -/
def c2_target : Personagem :=
  { nome := "Monstro", hp_max := 25, mp_max := 10, ataque_base := 4, defesa_base := 1,
    hp := 25, mp := 10 }

/-- Attacker for the damage-formula scenario: `ataque_total = 1`, level 1. -/
def c4_attacker : Personagem :=
  { nome := "A", hp_max := 30, mp_max := 5, ataque_base := 1, defesa_base := 0,
    hp := 30, mp := 5 }

/-- Defender for the damage-formula scenario: `defesa_total = 0`. -/
def c4_defender : Personagem :=
  { nome := "B", hp_max := 100, mp_max := 5, ataque_base := 0, defesa_base := 0,
    hp := 100, mp := 5 }

/-- An attack ability costing 30 MP. -/
def c5_skill : Habilidade :=
  { nome := "Golpe", descricao := "Golpe concentrado.", custo_mp := 30,
    tipo := .ATAQUE, valor_efeito := 20 }

/-- A player knowing `c5_skill` but holding only 20 MP. -/
def c5_player : Personagem :=
  { nome := "Heroi", hp_max := 30, mp_max := 20, ataque_base := 5, defesa_base := 2,
    hp := 30, mp := 20, habilidades_conhecidas := [c5_skill] }

/-- The enemy of the insufficient-MP scenario. -/
def c5_enemy : Personagem :=
  { nome := "Monstro", hp_max := 25, mp_max := 10, ataque_base := 4, defesa_base := 1,
    hp := 25, mp := 10 }

/-- The ongoing session for the insufficient-MP scenario. -/
def c5_cd : CombatDict :=
  { player := some c5_player, enemy := some c5_enemy, turn_count := 0,
    log := [], result := .ONGOING }

/-- A dead character (hp = 0) with one pending regeneration turn. -/
def c6_dead_regen : Personagem :=
  { nome := "Mortus", hp_max := 10, mp_max := 5, ataque_base := 1, defesa_base := 1,
    hp := 0, mp := 5, turnos_regeneracao := 1 }

/-- An in-bounds character for the vitals-invariant witness. -/
def c7_char : Personagem :=
  { nome := "Teste", hp_max := 10, mp_max := 8, ataque_base := 2, defesa_base := 1,
    hp := 4, mp := 3, turnos_veneno := 2, dano_por_turno_veneno := 3,
    turnos_regeneracao := 1 }

/-- The §8 poison scenario: `poison_turns=1, poison_damage_per_turn=5, hp=10`. -/
def c8_poisoned : Personagem :=
  { nome := "Zorg", hp_max := 10, mp_max := 5, ataque_base := 1, defesa_base := 1,
    hp := 10, mp := 5, turnos_veneno := 1, dano_por_turno_veneno := 5 }

/-- A character with all four status effects on their last turn at once. -/
def c8_all_effects : Personagem :=
  { nome := "Morg", hp_max := 20, mp_max := 5, ataque_base := 1, defesa_base := 1,
    hp := 10, mp := 5, turnos_veneno := 1, dano_por_turno_veneno := 3,
    turnos_buff_defesa := 1, turnos_furia := 1, turnos_regeneracao := 1 }

/-- A healing ability affordable by `c9_enemy`. -/
def c9_skill : Habilidade :=
  { nome := "Toque Restaurador", descricao := "Cura ferimentos.", custo_mp := 5,
    tipo := .CURA, valor_efeito := 10 }

/-- An enemy with one known ability and positive MP: the configuration under
which `_process_enemy_ai` runs its type-filter comprehensions. -/
def c9_enemy : Personagem :=
  { nome := "Monstro", hp_max := 25, mp_max := 10, ataque_base := 4, defesa_base := 1,
    hp := 25, mp := 10, habilidades_conhecidas := [c9_skill] }

/-- The player facing `c9_enemy`. -/
def c9_player : Personagem :=
  { nome := "Heroi", hp_max := 30, mp_max := 20, ataque_base := 5, defesa_base := 2,
    hp := 30, mp := 20 }

/-- The ongoing session for the enemy-turn scenario. -/
def c9_cd : CombatDict :=
  { player := some c9_player, enemy := some c9_enemy, turn_count := 2,
    log := [], result := .ONGOING }

/-- A badly hurt enemy, for the full-health-evaluation witness. -/
def c10_enemy : Personagem :=
  { nome := "Monstro", hp_max := 100, mp_max := 40, ataque_base := 4, defesa_base := 1,
    hp := 1, mp := 0 }

/-- A badly hurt player, for the full-health-evaluation witness. -/
def c10_player : Personagem :=
  { nome := "Heroi", hp_max := 50, mp_max := 20, ataque_base := 5, defesa_base := 2,
    hp := 1, mp := 20 }

/-- Unused `low_hp` and `player_low_hp` special triggers. -/
def c10_conds : List AISpecialCondition :=
  [⟨"low_hp", "flee_attempt", "O inimigo vacila!", false⟩,
   ⟨"player_low_hp", "charge_attack", "O inimigo avança!", false⟩]

/-! ### Helper lemmas -/

/-- Field accounting for the poison section: HP is clamped at 0 after
subtracting the full poison damage, and `hp_max`/`mp`/`mp_max`/regeneration
counter are untouched. -/
theorem poison_step_fields (p : Personagem) :
    (poison_step p).2.hp =
      (if 0 < p.turnos_veneno then max 0 (p.hp - p.dano_por_turno_veneno) else p.hp) ∧
    (poison_step p).2.hp_max = p.hp_max ∧
    (poison_step p).2.mp = p.mp ∧
    (poison_step p).2.mp_max = p.mp_max ∧
    (poison_step p).2.turnos_regeneracao = p.turnos_regeneracao := by
  simp only [poison_step]
  split_ifs <;> simp_all

/-- Field accounting for the defense-buff section: only the buff counter
changes. -/
theorem defense_buff_step_fields (p : Personagem) :
    (defense_buff_step p).2.hp = p.hp ∧
    (defense_buff_step p).2.hp_max = p.hp_max ∧
    (defense_buff_step p).2.mp = p.mp ∧
    (defense_buff_step p).2.mp_max = p.mp_max ∧
    (defense_buff_step p).2.turnos_regeneracao = p.turnos_regeneracao := by
  simp only [defense_buff_step]
  split_ifs <;> simp_all

/-- Field accounting for the fury section: only the fury counter changes. -/
theorem fury_step_fields (p : Personagem) :
    (fury_step p).2.hp = p.hp ∧
    (fury_step p).2.hp_max = p.hp_max ∧
    (fury_step p).2.mp = p.mp ∧
    (fury_step p).2.mp_max = p.mp_max ∧
    (fury_step p).2.turnos_regeneracao = p.turnos_regeneracao := by
  simp only [fury_step]
  split_ifs <;> simp_all

/-- Field accounting for the regeneration section: HP gains
`min 5 (hp_max - hp)` when that is positive; `hp_max`/`mp`/`mp_max` are
untouched. -/
theorem regen_step_fields (p : Personagem) :
    (regen_step p).2.hp =
      (if 0 < p.turnos_regeneracao then
        (if 0 < min 5 (p.hp_max - p.hp) then p.hp + min 5 (p.hp_max - p.hp) else p.hp)
       else p.hp) ∧
    (regen_step p).2.hp_max = p.hp_max ∧
    (regen_step p).2.mp = p.mp ∧
    (regen_step p).2.mp_max = p.mp_max := by
  simp only [regen_step]
  split_ifs <;> simp_all

/-- The resulting character of `process_status_effects` is the four section
steps composed in the source order. -/
theorem process_status_effects_snd (p : Personagem) :
    (p.process_status_effects).2 =
      (regen_step (fury_step (defense_buff_step (poison_step p).2).2).2).2 := by
  unfold Personagem.process_status_effects
  rcases h1 : poison_step p with ⟨m1, q1⟩
  rcases h2 : defense_buff_step q1 with ⟨m2, q2⟩
  rcases h3 : fury_step q2 with ⟨m3, q3⟩
  rcases h4 : regen_step q3 with ⟨m4, q4⟩
  simp [h1, h2, h3, h4]

/-- No `Personagem` has an `hp_atual` attribute, so the AI engine's HP
percentage helper always takes its fallback branch and returns 1.0. -/
theorem ai_hp_percentage_eq_one (p : Personagem) : ai_get_hp_percentage p = 1 := by
  simp [ai_get_hp_percentage, Personagem.getattrInt]
  norm_num

/-- No `Personagem` has an `mp_atual` attribute, so the AI engine's MP
percentage helper always takes its fallback branch and returns 1.0. -/
theorem ai_mp_percentage_eq_one (p : Personagem) : ai_get_mp_percentage p = 1 := by
  simp [ai_get_mp_percentage, Personagem.getattrInt]
  norm_num

/-- Special triggers conditioned on HP percentages (`low_hp`,
`player_low_hp`) can never fire against `Personagem` combatants, because the
percentage helpers always report 1.0. -/
theorem ai_special_hp_triggers_never_fire (e p : Personagem) (tc : Int) :
    ∀ conds : List AISpecialCondition,
      (∀ c ∈ conds, c.trigger = "low_hp" ∨ c.trigger = "player_low_hp") →
      (ai_check_special_conditions conds e p tc).1 = none := by
  intro conds
  induction conds with
  | nil => intro _; rfl
  | cons c rest ih =>
    intro hall
    have hc := hall c (by simp)
    have hrest : ∀ x ∈ rest, x.trigger = "low_hp" ∨ x.trigger = "player_low_hp" :=
      fun x hx => hall x (by simp [hx])
    have hlow : decide (ai_get_hp_percentage e < 0.25) = false := by
      simp only [decide_eq_false_iff_not, ai_hp_percentage_eq_one]
      norm_num
    have hlow2 : decide (ai_get_hp_percentage p < 0.3) = false := by
      simp only [decide_eq_false_iff_not, ai_hp_percentage_eq_one]
      norm_num
    unfold ai_check_special_conditions
    rcases htr : ai_check_special_conditions rest e p tc with ⟨r, rest2⟩
    have hr : r = none := by
      have h0 := ih hrest
      rw [htr] at h0
      exact h0
    by_cases hu : c.used
    · simp [hu, htr, hr]
    · rcases hc with h | h <;> simp [hu, h, hlow, hlow2, htr, hr]

/-! ### Claim theorems -/

/-- C1: when end-of-combat evaluation detects a corrupted session (here: a
player with negative HP), the code does not emit any event and does not set
the result to `PLAYER_WIN`: the handler's `emit_event(EventType.COMBAT_ERROR,
{... datetime.now() ...})` raises (no `COMBAT_ERROR` member, `datetime` not
imported), the exception is swallowed, and the session is cleared to `None`
with no result recorded.  The claimed `CombatError` event and forced
`PlayerWin` result do not happen. -/
theorem C1_corrupted_session_cleared_without_event :
    validate_combat_state (some c1_bad_player) (some c1_enemy) =
      ⟨false, "Player HP negativo"⟩ ∧
    check_combat_end (some c1_corrupt_cd) = (none, []) ∧
    eventTypeAttr "COMBAT_ERROR" =
      .error (.attributeError "EventType has no attribute COMBAT_ERROR") ∧
    datetimeNow = .error (.nameError "name datetime is not defined") :=
  ⟨rfl, rfl, rfl, rfl⟩

/-- C2: a skill of a type with no dispatch branch (`BUFF_ATAQUE`), known and
affordable, does NOT fail with `InvalidActionError`: the `elif` chain
evaluates `TipoHabilidade.FURIA`, which raises `AttributeError` first (after
the MP was already spent). -/
theorem C2_unhandled_skill_type_raises_attribute_error :
    c2_user.knows_skill "Grito de Guerra" = true ∧
    c2_user.mp ≥ c2_skill.custo_mp ∧
    process_skill_use c2_user c2_target "Grito de Guerra" =
      .error ({ c2_user with mp := 15 }, c2_target)
        (.attributeError "TipoHabilidade has no attribute FURIA") :=
  ⟨rfl, by decide, rfl⟩

/-- C3: the element-effectiveness chart is not constructible:
`_initialize_chart` raises `AttributeError` at the
`chart[Element.FOGO][Element.AGUA] = 0.5` line, because `Element` has no
`AGUA` member, so no lookup (`Divine to Shadow = 2.0`, self-resists, default
1.0) is ever reachable. -/
theorem C3_chart_construction_raises :
    initialize_chart =
      Except.error (PyError.attributeError "Element has no attribute AGUA") := rfl

/-- C4 (counterexample): with `ataque_total = 1`, damage roll 0 and
`defesa_total = 0`, a critical hit's pre-clamp damage is
`int(1 * 1.75 - 0) = 1`, while the claimed `round(...)` would give 2. -/
theorem C4_crit_damage_not_rounded :
    attack_total_damage c4_attacker c4_defender true 0 = 1 ∧
    pyRoundHalfEven (((c4_attacker.ataque_total + 0 : Int) : ℚ) * crit_multiplier -
      (c4_defender.defesa_total : ℚ) * 0.5) = 2 := by
  constructor
  · unfold attack_total_damage pyTrunc crit_multiplier Personagem.ataque_total
      Personagem.defesa_total c4_attacker c4_defender
    norm_num
  · unfold pyRoundHalfEven crit_multiplier Personagem.ataque_total
      Personagem.defesa_total c4_attacker c4_defender
    norm_num

/-- C4 (amended): for every basic attack with
`base_damage = ataque_total + dmgRoll`, a critical hit's pre-clamp damage is
`base_damage * crit_multiplier - defesa_total * 0.5` truncated toward zero
(Python `int()`, not `round()`); otherwise `base_damage - defesa_total`; the
result is clamped to a minimum of 1 and applied via `take_damage`, which
never raises here and reports the damage capped at the defender's current
HP. -/
theorem C4_attack_resolution (attacker defender : Personagem) (critRoll dmgRoll : Int) :
    attack_total_damage attacker defender true dmgRoll =
      pyTrunc (((attacker.ataque_total + dmgRoll : Int) : ℚ) * crit_multiplier -
        (defender.defesa_total : ℚ) * 0.5) ∧
    attack_total_damage attacker defender false dmgRoll =
      attacker.ataque_total + dmgRoll - defender.defesa_total ∧
    process_attack attacker defender critRoll dmgRoll =
      .ok (attacker,
          { defender with hp := max 0 (defender.hp -
              max 1 (attack_total_damage attacker defender
                (decide (critRoll ≤ base_crit_chance + attacker.nivel * 2)) dmgRoll)) })
        ((if critRoll ≤ base_crit_chance + attacker.nivel * 2 then
            ["[b yellow]GOLPE CRÍTICO![/b yellow]"] else []) ++
          [attacker.nome ++ " ataca " ++ defender.nome ++ " e causa [b]" ++
            toString (min (max 1 (attack_total_damage attacker defender
              (decide (critRoll ≤ base_crit_chance + attacker.nivel * 2)) dmgRoll))
              defender.hp) ++ "[/b] de dano!"]) := by
  refine ⟨rfl, rfl, ?_⟩
  simp only [process_attack, Personagem.take_damage]
  rw [if_neg (by omega :
    ¬ (max 1 (attack_total_damage attacker defender
      (decide (critRoll ≤ base_crit_chance + attacker.nivel * 2)) dmgRoll) < 0))]
  simp [decide_eq_true_eq]

/-- C5: a skill whose ability is known but whose MP cost exceeds the actor's
current MP makes `process_player_turn` raise `InsufficientResourcesError`
and leaves the whole session — in particular both characters' HP and MP —
exactly unchanged. -/
theorem C5_insufficient_mp (cd : CombatDict) (player enemy : Personagem)
    (name : String) (skill : Habilidade) (rolls : TurnRolls)
    (hpl : cd.player = some player) (hen : cd.enemy = some enemy)
    (hres : cd.result = .ONGOING) (halive : player.is_alive = true)
    (hfind : player.habilidades_conhecidas.find? (fun h => h.nome == name) = some skill)
    (hmp : player.mp < skill.custo_mp) :
    process_player_turn (some cd) .SKILL (some name) none rolls =
      .error (some cd) (.insufficientResourcesError "MP" skill.custo_mp player.mp) := by
  have hcu : player.can_use_skill skill = false := by
    simp only [Personagem.can_use_skill, decide_eq_false_iff_not]
    intro h
    omega
  obtain ⟨pl, en, tc, lg, res⟩ := cd
  simp only at hpl hen hres
  subst hpl
  subst hen
  subst hres
  simp [process_player_turn, process_player_turn_raw, process_skill_use, halive, hfind,
    hcu, hmp, handleExceptionsReraise, PyError.isZorg]

/-- C5 (witness): the 30-MP `Golpe` against a 20-MP player. -/
theorem C5_insufficient_mp_witness :
    c5_player.mp < c5_skill.custo_mp ∧
    process_player_turn (some c5_cd) .SKILL (some "Golpe") none {} =
      .error (some c5_cd) (.insufficientResourcesError "MP" 30 20) :=
  ⟨by decide,
   C5_insufficient_mp c5_cd c5_player c5_enemy "Golpe" c5_skill {} rfl rfl rfl (by decide)
     (by decide) (by decide)⟩

/-- C6 (counterexample): a dead character (`hp = 0`, `hp_max = 10`) with one
pending regeneration turn leaves `process_status_effects` with `hp = 5`,
refuting the claim that no combat operation raises a dead character's HP
above 0. -/
theorem C6_regen_heals_dead_character :
    c6_dead_regen.hp = 0 ∧
    (c6_dead_regen.process_status_effects).2.hp = 5 := ⟨rfl, rfl⟩

/-- C6 (amended): `heal` does raise `CharacterStateError` on a dead
character, but `hp = 0` is not terminal: `process_status_effects` with
active regeneration raises a dead character's HP to `min 5 hp_max > 0`. -/
theorem C6_dead_character (p : Personagem) (amount : Int) (hdead : p.hp = 0) :
    p.heal amount = .error p (.characterStateError "Não é possível curar um personagem morto") ∧
    (0 ≤ p.dano_por_turno_veneno → 0 < p.turnos_regeneracao → 0 < p.hp_max →
      (p.process_status_effects).2.hp = min 5 p.hp_max ∧
        0 < (p.process_status_effects).2.hp) := by
  constructor
  · simp [Personagem.heal, Personagem.is_dead, hdead]
  · intro hdan hreg hmax
    rw [process_status_effects_snd]
    obtain ⟨php, phmax, -, -, preg⟩ := poison_step_fields p
    obtain ⟨bhp, bhmax, -, -, breg⟩ := defense_buff_step_fields (poison_step p).2
    obtain ⟨fhp, fhmax, -, -, freg⟩ := fury_step_fields (defense_buff_step (poison_step p).2).2
    obtain ⟨rhp, -, -, -⟩ := regen_step_fields (fury_step (defense_buff_step (poison_step p).2).2).2
    have hp1 : (poison_step p).2.hp = 0 := by rw [php]; split_ifs <;> omega
    have hp3 : (fury_step (defense_buff_step (poison_step p).2).2).2.hp = 0 := by
      rw [fhp, bhp, hp1]
    have hmax3 : (fury_step (defense_buff_step (poison_step p).2).2).2.hp_max = p.hp_max := by
      rw [fhmax, bhmax, phmax]
    have hreg3 : (fury_step (defense_buff_step (poison_step p).2).2).2.turnos_regeneracao =
        p.turnos_regeneracao := by
      rw [freg, breg, preg]
    rw [rhp, hp3, hmax3, hreg3]
    constructor <;> (split_ifs <;> omega)

/-- C6 (witness): the counterexample character also witnesses the amended
claim's two conclusions. -/
theorem C6_dead_character_witness :
    c6_dead_regen.hp = 0 ∧
    c6_dead_regen.heal 7 =
      .error c6_dead_regen (.characterStateError "Não é possível curar um personagem morto") ∧
    (c6_dead_regen.process_status_effects).2.hp = min 5 c6_dead_regen.hp_max :=
  ⟨rfl, (C6_dead_character c6_dead_regen 7 rfl).1,
   ((C6_dead_character c6_dead_regen 7 rfl).2 (by decide) (by decide) (by decide)).1⟩

/-- C7: starting from in-bounds vitals, every single operation — `heal`,
`restore_mp`, `take_damage`, `spend_mp` (with the non-negative amounts the
game passes) and `process_status_effects` (with the non-negative poison
damage of the data model) — leaves `hp` in `[0, hp_max]` and `mp` in
`[0, mp_max]`, whether it returns or raises. -/
theorem C7_single_operation_bounds (p : Personagem) (amount : Int)
    (hb : InVitalBounds p) (hamt : 0 ≤ amount) (hpo : 0 ≤ p.dano_por_turno_veneno) :
    InVitalBounds (p.heal amount).state ∧
    InVitalBounds (p.restore_mp amount).state ∧
    InVitalBounds (p.take_damage amount).state ∧
    InVitalBounds (p.spend_mp amount).state ∧
    InVitalBounds (p.process_status_effects).2 := by
  obtain ⟨h1, h2, h3, h4⟩ := hb
  refine ⟨?_, ?_, ?_, ?_, ?_⟩
  · unfold Personagem.heal Personagem.is_dead InVitalBounds PyResult.state
    split_ifs <;> simp_all
    omega
  · unfold Personagem.restore_mp InVitalBounds PyResult.state
    simp_all
    omega
  · unfold Personagem.take_damage InVitalBounds PyResult.state
    split_ifs <;> simp_all
    omega
  · unfold Personagem.spend_mp InVitalBounds PyResult.state
    split_ifs <;> simp_all
    omega
  · rw [process_status_effects_snd]
    obtain ⟨php, phmax, pmp, pmpmax, -⟩ := poison_step_fields p
    obtain ⟨bhp, bhmax, bmp, bmpmax, -⟩ := defense_buff_step_fields (poison_step p).2
    obtain ⟨fhp, fhmax, fmp, fmpmax, -⟩ := fury_step_fields (defense_buff_step (poison_step p).2).2
    obtain ⟨rhp, rhmax, rmp, rmpmax⟩ :=
      regen_step_fields (fury_step (defense_buff_step (poison_step p).2).2).2
    unfold InVitalBounds
    rw [rhp, rhmax, rmp, rmpmax, fhp, fhmax, fmp, fmpmax, bhp, bhmax, bmp, bmpmax,
      php, phmax, pmp, pmpmax]
    split_ifs <;> refine ⟨by omega, by omega, by omega, by omega⟩

/-- C7 (witness): a poisoned, regenerating character at `hp = 4/10`,
`mp = 3/8` stays in bounds under `take_damage` and the status tick. -/
theorem C7_single_operation_bounds_witness :
    InVitalBounds c7_char ∧
    InVitalBounds (c7_char.take_damage 2).state ∧
    InVitalBounds (c7_char.process_status_effects).2 :=
  ⟨⟨by decide, by decide, by decide, by decide⟩,
   (C7_single_operation_bounds c7_char 2
     ⟨by decide, by decide, by decide, by decide⟩ (by decide) (by decide)).2.2.1,
   (C7_single_operation_bounds c7_char 2
     ⟨by decide, by decide, by decide, by decide⟩ (by decide) (by decide)).2.2.2.2⟩

/-- C8: `process_status_effects` evaluates poison, defense-buff expiry, fury
expiry and regeneration in that fixed order (visible in the six-message run
of `c8_all_effects`), caps poison damage at current HP and announces the
cure at counter 0; on `poison_turns=1, poison_damage_per_turn=5, hp=10` it
yields `hp=5`, `poison_turns=0` and exactly the damage and cure messages. -/
theorem C8_status_effects_order_and_poison :
    (c8_poisoned.process_status_effects).1 =
      ["☠️ Zorg sofre 5 de dano por veneno!", "✨ Zorg se recupera do veneno."] ∧
    (c8_poisoned.process_status_effects).2.hp = 5 ∧
    (c8_poisoned.process_status_effects).2.turnos_veneno = 0 ∧
    (c8_poisoned.process_status_effects).2.dano_por_turno_veneno = 0 ∧
    (c8_all_effects.process_status_effects).1 =
      ["☠️ Morg sofre 3 de dano por veneno!",
       "✨ Morg se recupera do veneno.",
       "🛡️ O buff de defesa de Morg termina.",
       "😠 A fúria de Morg termina.",
       "💚 Morg regenera 5 HP.",
       "✨ A regeneração de Morg termina."] ∧
    (c8_all_effects.process_status_effects).2.hp = 12 :=
  ⟨rfl, rfl, rfl, rfl, rfl, rfl⟩

/-- C9: enemy-turn resolution never reaches the
`except (InsufficientResourcesError, InvalidActionError)` fallback: with any
known ability and positive MP, the `regeneracao_skills` comprehension
evaluates `TipoHabilidade.REGENERACAO` and raises `AttributeError` before
any skill is chosen, and `process_enemy_turn` propagates the failure to the
caller (wrapped by the decorator) instead of degrading to a basic attack. -/
theorem C9_enemy_ai_crashes_before_fallback :
    process_enemy_ai c9_enemy c9_player {} =
      .error (c9_enemy, c9_player)
        (.attributeError "TipoHabilidade has no attribute REGENERACAO") ∧
    process_enemy_turn (some c9_cd) {} =
      .error (some c9_cd)
        (.zorgUnexpected "Erro inesperado em process_enemy_turn") :=
  ⟨rfl, rfl⟩

/-- C10: because `Personagem` defines `hp`/`mp` but not `hp_atual`/`mp_atual`,
the AI engine's percentage helpers return 1.0 for every character, so every
HP/MP-threshold condition evaluates as at full health (`hp_above_*`,
`mp_above_50`, `player_hp_high` true; `hp_below_*`, `mp_below_50`,
`player_hp_low` false) and the `low_hp`/`player_low_hp` special triggers
never fire. -/
theorem C10_ai_full_health (e p : Personagem) (tc : Int) :
    ai_get_hp_percentage e = 1 ∧ ai_get_mp_percentage e = 1 ∧
    ai_evaluate_condition "hp_above_75" e p tc = true ∧
    ai_evaluate_condition "hp_above_50" e p tc = true ∧
    ai_evaluate_condition "hp_above_25" e p tc = true ∧
    ai_evaluate_condition "hp_below_75" e p tc = false ∧
    ai_evaluate_condition "hp_below_50" e p tc = false ∧
    ai_evaluate_condition "hp_below_25" e p tc = false ∧
    ai_evaluate_condition "mp_above_50" e p tc = true ∧
    ai_evaluate_condition "mp_below_50" e p tc = false ∧
    ai_evaluate_condition "player_hp_low" e p tc = false ∧
    ai_evaluate_condition "player_hp_high" e p tc = true ∧
    (∀ conds : List AISpecialCondition,
      (∀ c ∈ conds, c.trigger = "low_hp" ∨ c.trigger = "player_low_hp") →
      (ai_check_special_conditions conds e p tc).1 = none) := by
  refine ⟨ai_hp_percentage_eq_one e, ai_mp_percentage_eq_one e,
    ?_, ?_, ?_, ?_, ?_, ?_, ?_, ?_, ?_, ?_,
    ai_special_hp_triggers_never_fire e p tc⟩ <;>
  · simp [ai_evaluate_condition, ai_hp_percentage_eq_one, ai_mp_percentage_eq_one]
    norm_num

/-- C10 (witness): a nearly dead enemy and player still evaluate as at full
health, and the `low_hp`/`player_low_hp` triggers of `c10_conds` stay cold. -/
theorem C10_ai_full_health_witness :
    ai_get_hp_percentage c10_enemy = 1 ∧
    ai_evaluate_condition "hp_below_25" c10_enemy c10_player 5 = false ∧
    (ai_check_special_conditions c10_conds c10_enemy c10_player 5).1 = none :=
  ⟨(C10_ai_full_health c10_enemy c10_player 5).1,
   (C10_ai_full_health c10_enemy c10_player 5).2.2.2.2.2.2.2.1,
   (C10_ai_full_health c10_enemy c10_player 5).2.2.2.2.2.2.2.2.2.2.2.2 c10_conds
     (by intro c hc; simp [c10_conds] at hc; rcases hc with h | h <;> simp [h])⟩

end Zorg
